import Mathlib

/-!
Verification development for the recorder PWA core: the recording
controller (useAudioRecorder), the encoding-format table (audioConst.ts)
and the playback engine (AudioPlayer.ts), shallowly embedded in Lean.

Binary blobs are modelled as lists of bytes tagged with a type string;
JS numbers that carry times are modelled as rationals; the single-threaded
event model is embedded by applying each event handler as an explicit
state-transition function, in the order the runtime would deliver it.
-/

namespace RecorderPWA

/-! ### Binary blobs -/

/-- A binary audio object: byte contents plus a MIME-like type tag
(models the DOM Blob as used by the recorder). -/
structure Blob where
  data : List Nat
  btype : String
deriving DecidableEq

/-- Byte length of a blob (Blob.size). -/
def Blob.size (b : Blob) : Nat := b.data.length

/-- Models the Blob constructor applied to a list of parts:
contents are concatenated in order, tagged with the given type. -/
def blobConcat (parts : List Blob) (t : String) : Blob :=
  ⟨(parts.map Blob.data).flatten, t⟩

/-! ### audioConst.ts : the encoding-format table -/

/-- One entry of AUDIO_CONFIGS: MIME type key, file extension,
estimated size per minute, priority (lower is preferred). -/
structure AudioConfig where
  mime : String
  extension : String
  estimatedSizeMBPerMinute : ℚ
  priority : Nat
deriving DecidableEq

/-- The AUDIO_CONFIGS table, in the source's key (insertion) order. -/
def AUDIO_CONFIGS : List AudioConfig :=
  [ ⟨"audio/webm;codecs=opus", "webm", 3/4, 1⟩,
    ⟨"audio/webm", "webm", 1, 2⟩,
    ⟨"audio/mp4", "mp4", 3/2, 3⟩,
    ⟨"audio/mpeg", "mp3", 3/2, 4⟩ ]

/-- Object.keys(AUDIO_CONFIGS), in insertion order. -/
def audioConfigKeys : List String := AUDIO_CONFIGS.map AudioConfig.mime

/-- Priority lookup for a MIME key of the table (AUDIO_CONFIGS[m].priority). -/
def priorityOf (m : String) : Nat :=
  ((AUDIO_CONFIGS.find? (fun c => c.mime = m)).map AudioConfig.priority).getD 0

/-- Stable insertion of a key into a priority-sorted key list
(models one step of the JS comparator sort, which is stable). -/
def insertByPriority (x : String) : List String → List String
  | [] => [x]
  | y :: ys =>
    if priorityOf x ≤ priorityOf y then x :: y :: ys
    else y :: insertByPriority x ys

/-- Stable sort of the key list by ascending priority
(models Array.prototype.sort with comparator a.priority - b.priority). -/
def sortKeysByPriority : List String → List String
  | [] => []
  | x :: xs => insertByPriority x (sortKeysByPriority xs)

/-- getBestSupportedMimeType: first supported key in priority order,
falling back to audio/mp4. `isTypeSupported` stands for the platform's
MediaRecorder.isTypeSupported predicate. -/
def getBestSupportedMimeType (isTypeSupported : String → Bool) : String :=
  ((sortKeysByPriority audioConfigKeys).find? isTypeSupported).getD "audio/mp4"

/-- isSupportedMimeType: membership of a MIME string in the table keys. -/
def isSupportedMimeType (m : String) : Bool := audioConfigKeys.contains m

/-- getFileExtensionOrThrow: extension of a supported MIME type, or the
"Formato no soportado" error for strings absent from the table. -/
def getFileExtensionOrThrow (m : String) : Except String String :=
  if isSupportedMimeType m then
    .ok (((AUDIO_CONFIGS.find? (fun c => c.mime = m)).map AudioConfig.extension).getD "")
  else
    .error ("Formato no soportado: " ++ m)

/-- Timestamp sanitizer used by generateFileName: colons and dots
become dashes. -/
def sanitizeTimestamp (s : String) : String :=
  s.map (fun c => if c = ':' ∨ c = '.' then '-' else c)

/-- generateFileName: recording-(sanitized timestamp).(extension);
the ISO timestamp is passed in rather than read from a clock. -/
def generateFileName (m : String) (isoTimestamp : String) : Except String String :=
  (getFileExtensionOrThrow m).map
    (fun ext => "recording-" ++ sanitizeTimestamp isoTimestamp ++ "." ++ ext)

/-! ### useAudioRecorder : the recording controller -/

/-- The controller's published status. -/
inductive RecStatus
  | idle
  | recording
  | paused
  | stopped
deriving DecidableEq

/-- The underlying MediaRecorder's own state. -/
inductive MRecState
  | inactive
  | recording
  | paused
deriving DecidableEq

/-- Combined controller state: the AudioRecorderState fields plus the
refs of the hook (mediaRecorderRef, mediaStreamRef, chunksRef,
mimeTypeRef, timerIntervalRef) and the per-session dataReceived flag of
setupRecorder's closure.  blobUrl is modelled by the blob the object URL
refers to. -/
structure Recorder where
  status : RecStatus
  recordingTime : Nat
  recordingBlob : Option Blob
  blobUrl : Option Blob
  error : Option String
  mediaRecorder : Option MRecState
  mediaStream : Option Unit
  chunks : List Blob
  mimeType : Option String
  timerOn : Bool
  dataReceived : Bool
deriving DecidableEq

/-- INITIAL_STATE together with all refs cleared, as on first render. -/
def initialRecorder : Recorder :=
  { status := .idle, recordingTime := 0, recordingBlob := none,
    blobUrl := none, error := none, mediaRecorder := none,
    mediaStream := none, chunks := [], mimeType := none,
    timerOn := false, dataReceived := false }

/-- reset: stops any active recorder and its tracks, revokes the blob
URL, runs the cleanup (removing the session's event listeners, so the
pending stop event of a stopped recorder is never handled and the dead
closure's dataReceived flag becomes unobservable), clears every ref and
restores INITIAL_STATE.  mimeTypeRef is not cleared by the source. -/
def reset (s : Recorder) : Recorder :=
  { status := .idle, recordingTime := 0, recordingBlob := none,
    blobUrl := none, error := none, mediaRecorder := none,
    mediaStream := none, chunks := [], mimeType := s.mimeType,
    timerOn := false, dataReceived := false }

/-- releaseResources is the hook's public name for reset. -/
def releaseResources (s : Recorder) : Recorder := reset s

/-- handleError: full reset, then status idle with the error recorded
(the two queued functional state updates applied in order). -/
def handleErrorFn (e : String) (s : Recorder) : Recorder :=
  let s1 := reset s
  { s1 with status := .idle, error := some e }

/-- handleDataAvailable: a non-empty delivered fragment sets
dataReceived and is re-wrapped with the session MIME type; the wrapped
chunk is appended when itself non-empty (it always has the same bytes). -/
def handleDataAvailable (s : Recorder) (d : Blob) : Recorder :=
  if 0 < d.size then
    let s1 := { s with dataReceived := true }
    let chunk : Blob := ⟨d.data, s.mimeType.getD ""⟩
    if 0 < chunk.size then { s1 with chunks := s1.chunks ++ [chunk] } else s1
  else s

/-- Deliver a list of fragments in order. -/
def deliverAll (s : Recorder) (cs : List Blob) : Recorder :=
  cs.foldl handleDataAvailable s

/-- handlePause (the recorder's pause event): stop the ticker, assemble
the chunks received so far, publish the blob and its URL, status paused. -/
def handlePause (s : Recorder) : Recorder :=
  let audioBlob := blobConcat s.chunks (s.mimeType.getD "")
  { s with
      timerOn := false, status := .paused,
      blobUrl := some audioBlob, recordingBlob := some audioBlob }

/-- handleResume (the recorder's resume event): restart the ticker,
status recording. -/
def handleResume (s : Recorder) : Recorder :=
  { s with timerOn := true, status := .recording }

/-- handleStop (the recorder's stop event): fail when no data was ever
received, when the chunk list is empty, or when the assembled blob is
empty — each through handleError; otherwise publish the assembled blob
and URL, clear the ticker and the error, set status stopped and stop the
hardware tracks (the mediaRecorder ref itself is kept). -/
def handleStop (s : Recorder) : Recorder :=
  if s.dataReceived = false then
    handleErrorFn "No audio data was received during recording" s
  else if s.chunks = [] then
    handleErrorFn "No audio data recorded" s
  else
    let audioBlob := blobConcat s.chunks (s.mimeType.getD "")
    if audioBlob.size = 0 then
      handleErrorFn "Generated empty audio blob" s
    else
      { s with
          timerOn := false, status := .stopped,
          recordingBlob := some audioBlob, blobUrl := some audioBlob,
          error := none }

/-- stopRecording: no-op without an active recorder; otherwise clears
the ticker and signals stop (the recorder becomes inactive; its stop
event is delivered afterwards as handleStop). -/
def stopRecording (s : Recorder) : Recorder :=
  match s.mediaRecorder with
  | none => s
  | some st =>
    if st = .inactive then s
    else { s with timerOn := false, mediaRecorder := some .inactive }

/-- togglePauseResume: no-op without an active recorder; resumes when
paused (recorder.resume, ticker, status, then the resume event) and
pauses when recording (recorder.pause, ticker, status, then the pause
event); any other status leaves the state unchanged. -/
def togglePauseResume (s : Recorder) : Recorder :=
  match s.mediaRecorder with
  | none => s
  | some st =>
    if st = .inactive then s
    else if s.status = .paused then
      handleResume { s with
                       mediaRecorder := some .recording,
                       timerOn := true, status := .recording }
    else if s.status = .recording then
      handlePause { s with
                      mediaRecorder := some .paused,
                      timerOn := false, status := .paused }
    else s

/-- The environment of one startRecording attempt: the outcome of
getUserMedia and whether the obtained stream is active.  The recorder's
own start call is modelled as succeeding. -/
structure AttemptEnv where
  streamResult : Except String Unit
  streamActive : Bool

/-- One body of the startRecording try block: stop a recorder that is
still recording, reset, request the stream, check it is active, pick the
MIME type and check platform support, create the recorder, register the
session handlers (fresh dataReceived) and start it.  A failure returns
the error together with the state reached so far. -/
def attempt (sup : String → Bool) (env : AttemptEnv) (s : Recorder) :
    Except (String × Recorder) Recorder :=
  let s0 := if s.mediaRecorder = some .recording then stopRecording s else s
  let s1 := reset s0
  match env.streamResult with
  | .error e => .error (e, s1)
  | .ok _ =>
    if env.streamActive = false then
      .error ("Obtained inactive media stream", s1)
    else
      let s2 := { s1 with mediaStream := some () }
      let m := getBestSupportedMimeType sup
      if sup m = false then
        .error ("Mime type " ++ m ++ " is not supported", s2)
      else
        let s3 := { s2 with mimeType := some m }
        .ok { s3 with
              mediaRecorder := some .recording, timerOn := true,
              status := .recording, recordingBlob := none,
              error := none, dataReceived := false }

/-- The retry loop of startRecording: attempts consume the environment
list in order; below retry count 2 a failure waits 1000 ms (collected in
the returned delay list) and retries, and the third consecutive failure
goes through handleError.  A success returns immediately. -/
def startRecAux (sup : String → Bool) :
    List AttemptEnv → Nat → Recorder → Recorder × List Nat
  | [], _, s => (s, [])
  | env :: rest, n, s =>
    match attempt sup env s with
    | .ok s1 => (s1, [])
    | .error (e, s1) =>
      if n < 2 then
        let r := startRecAux sup rest (n + 1) s1
        (r.1, 1000 :: r.2)
      else (handleErrorFn e s1, [])

/-- startRecording, from retry count 0. -/
def startRecordingRun (sup : String → Bool) (envs : List AttemptEnv)
    (s : Recorder) : Recorder × List Nat :=
  startRecAux sup envs 0 s

/-! ### AudioPlayer.ts : the playback engine

The AudioContext clock (context.currentTime) is an external input: each
operation that reads it takes the reading as a rational argument.
Context resume and node start are modelled as succeeding; fetch+decode
outcomes are passed to loadAudio as an Except value.  notify is observed
through a counter of subscriber notifications. -/

/-- The decode context's running/suspended state (a closed context is
always nulled immediately by the source, so it is modelled by none). -/
inductive CtxState
  | running
  | suspended
deriving DecidableEq

/-- A decoded audio buffer; only its duration is consulted. -/
structure PBuffer where
  duration : ℚ
deriving DecidableEq

/-- AudioPlayerError: message plus code (LOAD_ERROR or PLAYBACK_ERROR). -/
structure APError where
  message : String
  code : String
deriving DecidableEq

/-- Combined engine state: the AudioPlayerInternalState fields (the id
string is constant and omitted) plus the audio record (context, source
node presence, buffer) and whether the animation-frame tracking loop is
scheduled.  notifyCount counts subscriber notifications. -/
structure Player where
  isPlaying : Bool
  isReady : Bool
  currentTime : ℚ
  offset : ℚ
  duration : ℚ
  startTime : ℚ
  error : Option String
  context : Option CtxState
  source : Option Unit
  buffer : Option PBuffer
  timeUpdateOn : Bool
  notifyCount : Nat
deriving DecidableEq

/-- The freshly constructed player. -/
def initialPlayer : Player :=
  { isPlaying := false, isReady := false, currentTime := 0, offset := 0,
    duration := 0, startTime := 0, error := none, context := none,
    source := none, buffer := none, timeUpdateOn := false, notifyCount := 0 }

/-- The record compared by transition's JSON snapshot of the internal
state (the constant id is omitted). -/
structure StateView where
  isPlaying : Bool
  isReady : Bool
  currentTime : ℚ
  offset : ℚ
  duration : ℚ
  startTime : ℚ
  error : Option String
deriving DecidableEq

/-- The compared view of a player's internal state. -/
def Player.stateTuple (p : Player) : StateView :=
  ⟨p.isPlaying, p.isReady, p.currentTime, p.offset, p.duration,
   p.startTime, p.error⟩

/-- notify: every subscriber callback runs; observed as a counter bump. -/
def notifyP (p : Player) : Player :=
  { p with notifyCount := p.notifyCount + 1 }

/-- transition: apply the updates, then notify exactly when the compared
internal state changed.  `p` is the player before, `q` after the update. -/
def transitionP (p q : Player) : Player :=
  if p.stateTuple = q.stateTuple then q else notifyP q

/-- getCurrentTime: offset when not playing; 0 without a context;
otherwise the derived clock reading. -/
def Player.getCurrentTime (p : Player) (clockNow : ℚ) : ℚ :=
  if p.isPlaying = false then p.offset
  else match p.context with
    | none => 0
    | some _ => clockNow - p.startTime + p.offset

/-- The snapshot record returned by getSnapshot. -/
structure Snapshot where
  isPlaying : Bool
  isReady : Bool
  currentTime : ℚ
  duration : ℚ
deriving DecidableEq

/-- getSnapshot (the caching of a referentially stable object is an
identity-level optimisation; the value is as computed here). -/
def getSnapshot (p : Player) (clockNow : ℚ) : Snapshot :=
  { isPlaying := p.isPlaying, isReady := p.isReady,
    currentTime := p.getCurrentTime clockNow,
    duration := ((p.buffer.map PBuffer.duration).getD 0) }

/-- The source node's onended handler: reads the derived current time
and, at or beyond duration minus 0.1 s, resets offset to 0, marks not
playing, drops the node, stops the tracking loop and notifies; earlier
stops change nothing.  The handler dereferences the buffer, which is
present whenever a live node can fire. -/
def handleEnded (p : Player) (clockNow : ℚ) : Player :=
  match p.buffer with
  | none => p
  | some b =>
    let ct := p.getCurrentTime clockNow
    if ct ≥ b.duration - 1/10 then
      notifyP { p with
                  offset := 0, isPlaying := false, source := none,
                  timeUpdateOn := false }
    else p

/-- startPlayback: with a context and buffer, create and start a fresh
node at the current offset and transition to playing with the clock
reading as startTime; without either, do nothing. -/
def startPlayback (p : Player) (clockNow : ℚ) : Player :=
  match p.context, p.buffer with
  | some _, some _ =>
    let p1 := { p with source := some () }
    transitionP p1 { p1 with isPlaying := true, startTime := clockNow }
  | _, _ => p

/-- play: no-op without context or buffer or when already playing;
otherwise resume the context, create and start a node at the offset,
begin the tracking loop, and transition to playing. -/
def play (p : Player) (clockNow : ℚ) : Player :=
  if p.context = none ∨ p.buffer = none ∨ p.isPlaying = true then p
  else
    let p1 := { p with context := some .running, source := some () }
    let p2 := { p1 with timeUpdateOn := true }
    transitionP p2 { p2 with isPlaying := true, startTime := clockNow }

/-- pause: no-op without a context or when not playing; otherwise stop
and drop the node, suspend the context, stop the tracking loop and
freeze the offset at the derived current time (remaining ready). -/
def pause (p : Player) (clockNow : ℚ) : Player :=
  if p.context = none ∨ p.isPlaying = false then p
  else
    let p1 := { p with
                  source := none, context := some .suspended,
                  timeUpdateOn := false }
    transitionP p1 { p1 with
                       isPlaying := false,
                       offset := p1.getCurrentTime clockNow,
                       isReady := true }

/-- seek: no-op without a buffer; otherwise stop any current node, clamp
the requested time to the buffer duration, and either restart playback
from the new offset (when it was playing) or just notify. -/
def seek (p : Player) (time : ℚ) (clockNow : ℚ) : Player :=
  match p.buffer with
  | none => p
  | some b =>
    let wasPlaying := p.isPlaying
    let p1 := if p.source.isSome then { p with source := none } else p
    let p2 := { p1 with offset := max 0 (min time b.duration) }
    if wasPlaying then startPlayback p2 clockNow else notifyP p2

/-- loadAudio: create the context on first use or suspend the existing
one, then fetch and decode (the combined outcome is `result`).  Success
stores the buffer and transitions to ready at offset 0 (the trailing
setupSource call builds a node whose reference is discarded).  Failure
closes and nulls the context, nulls the buffer and transitions to the
not-ready zero state with the raw error recorded.  The second component
is what the call throws to its caller: the catch block never rethrows,
so it is always none. -/
def loadAudio (p : Player) (result : Except String PBuffer) :
    Player × Option APError :=
  let p1 := match p.context with
    | none => { p with context := some .running }
    | some _ => { p with context := some .suspended }
  match result with
  | .ok buf =>
    let p2 := { p1 with buffer := some buf }
    (transitionP p2 { p2 with offset := 0, isReady := true }, none)
  | .error e =>
    let p2 := { p1 with context := none, buffer := none }
    (transitionP p2 { p2 with
                        isReady := false, error := some e,
                        isPlaying := false, offset := 0,
                        currentTime := 0, duration := 0 }, none)

/-- dispose: pause (a no-op once the context is gone), stop the tracking
loop, close and null the context, drop the buffer, and reset the
published fields to the not-ready defaults.  The source field is only
cleared by the inner pause when it was playing. -/
def dispose (p : Player) (clockNow : ℚ) : Player :=
  let p1 := pause p clockNow
  { p1 with
      timeUpdateOn := false, context := none, buffer := none,
      isPlaying := false, isReady := false, currentTime := 0,
      offset := 0, duration := 0, startTime := 0, error := none }

/-! ### Helper lemmas about the recorder -/

/-- stopRecording leaves the session MIME type untouched. -/
theorem stopRecording_mimeType (s : Recorder) :
    (stopRecording s).mimeType = s.mimeType := by
  unfold stopRecording
  cases h : s.mediaRecorder with
  | none => rfl
  | some st => by_cases hst : st = .inactive <;> simp [hst]

/-- Resetting after a stop signal equals resetting directly. -/
theorem reset_stopRecording (s : Recorder) : reset (stopRecording s) = reset s := by
  unfold reset
  rw [stopRecording_mimeType]

/-- The state reached by a successful startRecording attempt. -/
def startedState (sup : String → Bool) : Recorder :=
  { status := .recording, recordingTime := 0, recordingBlob := none,
    blobUrl := none, error := none, mediaRecorder := some .recording,
    mediaStream := some (), chunks := [], timerOn := true,
    mimeType := some (getBestSupportedMimeType sup), dataReceived := false }

/-- A successful attempt (active stream, supported format) lands in
startedState, regardless of the prior state. -/
theorem attempt_good (sup : String → Bool) (s : Recorder)
    (h : sup (getBestSupportedMimeType sup) = true) :
    attempt sup ⟨.ok (), true⟩ s = .ok (startedState sup) := by
  have hr : reset (if s.mediaRecorder = some .recording
      then stopRecording s else s) = reset s := by
    split
    · exact reset_stopRecording s
    · rfl
  unfold attempt
  simp only [hr, h, reset, startedState]
  rfl

/-- A failing getUserMedia attempt fails with that error from the reset
state, regardless of the prior state. -/
theorem attempt_fail (sup : String → Bool) (e : String) (s : Recorder) :
    attempt sup ⟨.error e, true⟩ s = .error (e, reset s) := by
  have hr : reset (if s.mediaRecorder = some .recording
      then stopRecording s else s) = reset s := by
    split
    · exact reset_stopRecording s
    · rfl
  unfold attempt
  simp only [hr]

/-- startRecording with a first successful attempt starts recording
with no retries. -/
theorem startRecordingRun_good (sup : String → Bool) (s : Recorder)
    (envs : List AttemptEnv)
    (h : sup (getBestSupportedMimeType sup) = true) :
    startRecordingRun sup (⟨.ok (), true⟩ :: envs) s = (startedState sup, []) := by
  unfold startRecordingRun startRecAux
  rw [attempt_good sup s h]

/-- Delivered fragments append their wrapped non-empty members, in
order, to the chunk list, and record whether any was non-empty; no
other field changes. -/
theorem deliverAll_eq (cs : List Blob) (s : Recorder) :
    deliverAll s cs =
      { s with
          chunks := s.chunks ++
            (cs.filter (fun c => decide (0 < c.size))).map
              (fun c => ⟨c.data, s.mimeType.getD ""⟩),
          dataReceived := s.dataReceived || cs.any (fun c => decide (0 < c.size)) } := by
  induction cs generalizing s with
  | nil => simp [deliverAll]
  | cons c cs ih =>
    by_cases h : 0 < c.size
    · have hc : (0 : Nat) < (Blob.mk c.data (s.mimeType.getD "")).size := h
      have step : handleDataAvailable s c =
          { s with
              dataReceived := true,
              chunks := s.chunks ++ [⟨c.data, s.mimeType.getD ""⟩] } := by
        unfold handleDataAvailable
        simp [h, hc]
      have : deliverAll s (c :: cs) =
          deliverAll { s with
              dataReceived := true,
              chunks := s.chunks ++ [⟨c.data, s.mimeType.getD ""⟩] } cs := by
        simp [deliverAll, step]
      rw [this, ih]
      simp [h]
    · have step : handleDataAvailable s c = s := by
        unfold handleDataAvailable
        simp [h]
      have : deliverAll s (c :: cs) = deliverAll s cs := by
        simp [deliverAll, step]
      rw [this, ih]
      simp [h]

/-- A session that starts successfully, receives fragments, is told to
stop, receives the final flush of fragments and then handles the stop
event. -/
def recordThenStop (sup : String → Bool) (s0 : Recorder)
    (cs1 cs2 : List Blob) : Recorder :=
  let s1 := (startRecordingRun sup [⟨.ok (), true⟩] s0).1
  let s2 := deliverAll s1 cs1
  let s3 := stopRecording s2
  let s4 := deliverAll s3 cs2
  handleStop s4

/-- Claim C2: a finalize on a session that received zero non-empty
chunks fails with the no-data error, performs a full reset, and leaves
status idle with the error recorded — never status stopped and never a
non-null assembled object.  Stated both for any state whose session saw
no data and for the concrete start/deliver/stop session shape. -/
theorem claim_C2 :
    (∀ s : Recorder, s.dataReceived = false →
      (handleStop s).status = .idle ∧
      (handleStop s).status ≠ .stopped ∧
      (handleStop s).error = some "No audio data was received during recording" ∧
      (handleStop s).recordingBlob = none ∧
      (handleStop s).mediaRecorder = none) ∧
    (∀ (sup : String → Bool) (s0 : Recorder) (cs1 cs2 : List Blob),
      sup (getBestSupportedMimeType sup) = true →
      (cs1 ++ cs2).any (fun c => decide (0 < c.size)) = false →
      (recordThenStop sup s0 cs1 cs2).status = .idle ∧
      (recordThenStop sup s0 cs1 cs2).status ≠ .stopped ∧
      (recordThenStop sup s0 cs1 cs2).error =
        some "No audio data was received during recording" ∧
      (recordThenStop sup s0 cs1 cs2).recordingBlob = none) := by
  have base : ∀ s : Recorder, s.dataReceived = false →
      (handleStop s).status = .idle ∧
      (handleStop s).status ≠ .stopped ∧
      (handleStop s).error = some "No audio data was received during recording" ∧
      (handleStop s).recordingBlob = none ∧
      (handleStop s).mediaRecorder = none := by
    intro s h
    unfold handleStop handleErrorFn reset
    simp [h]
  refine ⟨base, ?_⟩
  intro sup s0 cs1 cs2 hsup hany
  have hsplit : cs1.any (fun c => decide (0 < c.size)) = false ∧
      cs2.any (fun c => decide (0 < c.size)) = false := by
    rw [List.any_append] at hany
    exact Bool.or_eq_false_iff.mp hany
  have hdr : (recordThenStop sup s0 cs1 cs2) =
      handleStop (deliverAll (stopRecording (deliverAll (startedState sup) cs1)) cs2) := by
    unfold recordThenStop
    rw [startRecordingRun_good sup s0 [] hsup]
  have hnd : (deliverAll (stopRecording (deliverAll (startedState sup) cs1)) cs2).dataReceived = false := by
    rw [deliverAll_eq]
    rw [deliverAll_eq]
    simp [startedState, stopRecording, hsplit.1, hsplit.2]
  rw [hdr]
  have := base _ hnd
  exact ⟨this.1, this.2.1, this.2.2.1, this.2.2.2.1⟩

/-- An attempt environment whose getUserMedia call fails. -/
def failEnv (e : String) : AttemptEnv := ⟨.error e, true⟩

/-- Claim C6: a failing acquisition is retried exactly 2 more times
with a fixed 1000 ms delay before each retry; only the third
consecutive failure is surfaced, with a full reset and status idle plus
the error; later environments are never consulted, and an earlier
success stops the retrying with no error surfaced. -/
theorem claim_C6 :
    (∀ (sup : String → Bool) (s0 : Recorder) (e1 e2 e3 : String)
       (rest : List AttemptEnv),
      (startRecordingRun sup (failEnv e1 :: failEnv e2 :: failEnv e3 :: rest) s0).2 =
        [1000, 1000] ∧
      (startRecordingRun sup (failEnv e1 :: failEnv e2 :: failEnv e3 :: rest) s0).1.status = .idle ∧
      (startRecordingRun sup (failEnv e1 :: failEnv e2 :: failEnv e3 :: rest) s0).1.error = some e3 ∧
      (startRecordingRun sup (failEnv e1 :: failEnv e2 :: failEnv e3 :: rest) s0).1.mediaRecorder = none ∧
      (startRecordingRun sup (failEnv e1 :: failEnv e2 :: failEnv e3 :: rest) s0).1.recordingBlob = none) ∧
    (∀ (sup : String → Bool) (s0 : Recorder) (e1 : String)
       (rest : List AttemptEnv),
      sup (getBestSupportedMimeType sup) = true →
      startRecordingRun sup (failEnv e1 :: ⟨.ok (), true⟩ :: rest) s0 =
        (startedState sup, [1000])) := by
  constructor
  · intro sup s0 e1 e2 e3 rest
    have h : startRecordingRun sup (failEnv e1 :: failEnv e2 :: failEnv e3 :: rest) s0 =
        (handleErrorFn e3 (reset (reset (reset s0))), [1000, 1000]) := by
      unfold startRecordingRun
      unfold startRecAux
      rw [show (failEnv e1) = (⟨.error e1, true⟩ : AttemptEnv) from rfl,
          attempt_fail sup e1 s0]
      simp only []
      unfold startRecAux
      rw [show (failEnv e2) = (⟨.error e2, true⟩ : AttemptEnv) from rfl,
          attempt_fail sup e2 (reset s0)]
      simp only []
      unfold startRecAux
      rw [show (failEnv e3) = (⟨.error e3, true⟩ : AttemptEnv) from rfl,
          attempt_fail sup e3 (reset (reset s0))]
      simp
    rw [h]
    unfold handleErrorFn reset
    simp
  · intro sup s0 e1 rest hsup
    unfold startRecordingRun
    unfold startRecAux
    rw [show (failEnv e1) = (⟨.error e1, true⟩ : AttemptEnv) from rfl,
        attempt_fail sup e1 s0]
    simp only []
    unfold startRecAux
    rw [attempt_good sup (reset s0) hsup]
    simp

/-- Claim C8: releaseResources twice in a row yields the same cleared
idle controller state both times, and dispose twice in a row yields the
same engine state both times, whose published snapshot is the not-ready
default.  Both operations are total functions here: the source's reset
catches internally and dispose has no throwing path. -/
theorem claim_C8 (s : Recorder) (p : Player) (c1 c2 c3 : ℚ) :
    releaseResources (releaseResources s) = releaseResources s ∧
    (releaseResources s).status = .idle ∧
    (releaseResources s).recordingBlob = none ∧
    (releaseResources s).blobUrl = none ∧
    (releaseResources s).error = none ∧
    (releaseResources s).mediaRecorder = none ∧
    (releaseResources s).chunks = [] ∧
    (releaseResources s).timerOn = false ∧
    (releaseResources s).recordingTime = 0 ∧
    dispose (dispose p c1) c2 = dispose p c1 ∧
    getSnapshot (dispose p c1) c3 = ⟨false, false, 0, 0⟩ := by
  refine ⟨rfl, rfl, rfl, rfl, rfl, rfl, rfl, rfl, rfl, ?_, ?_⟩
  · unfold dispose pause
    simp
  · unfold dispose getSnapshot Player.getCurrentTime
    simp

/-- Claim C10: for every platform-support predicate the selected MIME
type is a key of the AUDIO_CONFIGS table (the audio/mp4 fallback is
itself an entry), so getFileExtensionOrThrow and generateFileName never
reach their unsupported-format error branch on it. -/
theorem claim_C10 (sup : String → Bool) (ts : String) :
    getBestSupportedMimeType sup ∈ audioConfigKeys ∧
    (getFileExtensionOrThrow (getBestSupportedMimeType sup)).isOk = true ∧
    (generateFileName (getBestSupportedMimeType sup) ts).isOk = true := by
  have hsort : sortKeysByPriority audioConfigKeys = audioConfigKeys := by decide
  have hmem : getBestSupportedMimeType sup ∈ audioConfigKeys := by
    unfold getBestSupportedMimeType
    cases hf : (sortKeysByPriority audioConfigKeys).find? sup with
    | none => simp [audioConfigKeys, AUDIO_CONFIGS]
    | some m =>
      have := List.mem_of_find?_eq_some hf
      rw [hsort] at this
      simpa using this
  have hext : (getFileExtensionOrThrow (getBestSupportedMimeType sup)).isOk = true := by
    unfold getFileExtensionOrThrow isSupportedMimeType
    have hc : audioConfigKeys.contains (getBestSupportedMimeType sup) = true :=
      List.elem_eq_true_of_mem hmem
    simp [hc, hmem, Except.isOk, Except.toBool]
  refine ⟨hmem, hext, ?_⟩
  unfold generateFileName
  revert hext
  cases getFileExtensionOrThrow (getBestSupportedMimeType sup) <;>
    simp [Except.map, Except.isOk, Except.toBool]

/-- Witness for claim C2 at concrete inputs: a session with no
deliveries at all ends idle with the no-data error. -/
theorem claim_C2_witness :
    ((fun _ : String => true) (getBestSupportedMimeType (fun _ => true)) = true) ∧
    (([] : List Blob) ++ ([] : List Blob)).any (fun c => decide (0 < c.size)) = false ∧
    (recordThenStop (fun _ => true) initialRecorder [] []).status = .idle ∧
    (recordThenStop (fun _ => true) initialRecorder [] []).recordingBlob = none :=
  ⟨by decide, by decide,
   (claim_C2.2 (fun _ => true) initialRecorder [] [] (by decide) (by decide)).1,
   (claim_C2.2 (fun _ => true) initialRecorder [] [] (by decide) (by decide)).2.2.2⟩

/-- Witness for claim C6 at concrete inputs: one failure then a success
retries once with a 1000 ms delay; three failures surface the third
error after two delays. -/
theorem claim_C6_witness :
    ((fun _ : String => true) (getBestSupportedMimeType (fun _ => true)) = true) ∧
    startRecordingRun (fun _ => true) [failEnv "denied", ⟨.ok (), true⟩] initialRecorder =
      (startedState (fun _ => true), [1000]) ∧
    (startRecordingRun (fun _ => true)
      [failEnv "e1", failEnv "e2", failEnv "e3"] initialRecorder).2 = [1000, 1000] ∧
    (startRecordingRun (fun _ => true)
      [failEnv "e1", failEnv "e2", failEnv "e3"] initialRecorder).1.error = some "e3" :=
  ⟨by decide,
   claim_C6.2 (fun _ => true) initialRecorder "denied" [] (by decide),
   (claim_C6.1 (fun _ => true) initialRecorder "e1" "e2" "e3" []).1,
   (claim_C6.1 (fun _ => true) initialRecorder "e1" "e2" "e3" []).2.2.1⟩

/-! ### Helper lemmas about the player -/

/-- transition only ever adds a notification; every field other than the
notification counter is the updated one. -/
theorem transitionP_isPlaying (p q : Player) :
    (transitionP p q).isPlaying = q.isPlaying := by
  unfold transitionP notifyP; split <;> rfl

/-- transition passes the updated isReady through. -/
theorem transitionP_isReady (p q : Player) :
    (transitionP p q).isReady = q.isReady := by
  unfold transitionP notifyP; split <;> rfl

/-- transition passes the updated currentTime through. -/
theorem transitionP_currentTime (p q : Player) :
    (transitionP p q).currentTime = q.currentTime := by
  unfold transitionP notifyP; split <;> rfl

/-- transition passes the updated offset through. -/
theorem transitionP_offset (p q : Player) :
    (transitionP p q).offset = q.offset := by
  unfold transitionP notifyP; split <;> rfl

/-- transition passes the updated duration through. -/
theorem transitionP_duration (p q : Player) :
    (transitionP p q).duration = q.duration := by
  unfold transitionP notifyP; split <;> rfl

/-- transition passes the updated startTime through. -/
theorem transitionP_startTime (p q : Player) :
    (transitionP p q).startTime = q.startTime := by
  unfold transitionP notifyP; split <;> rfl

/-- transition passes the updated error through. -/
theorem transitionP_error (p q : Player) :
    (transitionP p q).error = q.error := by
  unfold transitionP notifyP; split <;> rfl

/-- transition passes the updated context through. -/
theorem transitionP_context (p q : Player) :
    (transitionP p q).context = q.context := by
  unfold transitionP notifyP; split <;> rfl

/-- transition passes the updated source through. -/
theorem transitionP_source (p q : Player) :
    (transitionP p q).source = q.source := by
  unfold transitionP notifyP; split <;> rfl

/-- transition passes the updated buffer through. -/
theorem transitionP_buffer (p q : Player) :
    (transitionP p q).buffer = q.buffer := by
  unfold transitionP notifyP; split <;> rfl

/-- transition passes the updated tracking-loop flag through. -/
theorem transitionP_timeUpdateOn (p q : Player) :
    (transitionP p q).timeUpdateOn = q.timeUpdateOn := by
  unfold transitionP notifyP; split <;> rfl

/-! ### Playback engine claims -/

/-- Counterexample to claim C4 as stated: with a failing fetch, the
loadAudio call does not fail with a LoadError — the catch block records
the raw error in internal state and returns normally, throwing nothing
to the caller (the AudioPlayerError LOAD_ERROR code is never raised on
this path). -/
theorem claim_C4_counterexample :
    (loadAudio initialPlayer (.error "Failed to fetch")).2 = none ∧
    (loadAudio initialPlayer (.error "Failed to fetch")).1.error =
      some "Failed to fetch" := by
  constructor <;> rfl

/-- Claim C4 as amended: when loadAudio's fetch or decode fails, the
call completes without throwing a LoadError (the raw error is recorded
internally instead), the decode context is closed and set to null, the
decoded buffer is set to null, the published state is not-ready with
zero duration, and a subsequent play() is a no-op that changes no
state. -/
theorem claim_C4_amended (p : Player) (e : String) (c c2 : ℚ) :
    (loadAudio p (.error e)).2 = none ∧
    (loadAudio p (.error e)).1.context = none ∧
    (loadAudio p (.error e)).1.buffer = none ∧
    (loadAudio p (.error e)).1.isReady = false ∧
    (loadAudio p (.error e)).1.error = some e ∧
    getSnapshot (loadAudio p (.error e)).1 c = ⟨false, false, 0, 0⟩ ∧
    play (loadAudio p (.error e)).1 c2 = (loadAudio p (.error e)).1 := by
  have hload : ∀ q : Player, q = (loadAudio p (.error e)).1 →
      q.context = none ∧ q.buffer = none ∧ q.isReady = false ∧
      q.error = some e ∧ q.isPlaying = false ∧ q.offset = 0 := by
    intro q hq
    subst hq
    unfold loadAudio transitionP notifyP
    cases p.context <;> (dsimp only []; split <;> simp)
  obtain ⟨hctx, hbuf, hready, herr, hplaying, hoff⟩ :=
    hload (loadAudio p (.error e)).1 rfl
  refine ⟨rfl, hctx, hbuf, hready, herr, ?_, ?_⟩
  · unfold getSnapshot Player.getCurrentTime
    rw [hplaying, hready, hbuf, hoff]
    rfl
  · unfold play
    rw [hctx]
    simp

/-- Characterisation of seek, under the invariant that a playing
player owns a decode context. -/
theorem seek_spec (p : Player) (o clock : ℚ) :
    (p.buffer = none → seek p o clock = p) ∧
    (∀ b : PBuffer, p.buffer = some b →
      (p.isPlaying = true → p.context.isSome = true) →
      (seek p o clock).offset = max 0 (min o b.duration) ∧
      (getSnapshot (seek p o clock) clock).currentTime = max 0 (min o b.duration) ∧
      (seek p o clock).isPlaying = p.isPlaying ∧
      (p.isPlaying = true →
        (seek p o clock).source = some () ∧ (seek p o clock).startTime = clock)) := by
  obtain ⟨iP, iR, cT, off, dur, sT, err, ctx, src, buf, tU, nC⟩ := p
  constructor
  · intro hb
    simp only [] at hb
    unfold seek
    rw [hb]
  · intro b hb hctx
    simp only [] at hb hctx
    subst hb
    cases iP with
    | false =>
      cases src <;>
        simp [seek, startPlayback, transitionP, notifyP, getSnapshot,
              Player.getCurrentTime]
    | true =>
      obtain ⟨cst, hcs⟩ := Option.isSome_iff_exists.mp (hctx rfl)
      subst hcs
      cases src <;>
        simp [seek, startPlayback, getSnapshot, Player.getCurrentTime,
              transitionP_isPlaying, transitionP_offset, transitionP_startTime,
              transitionP_source, transitionP_context, transitionP_buffer,
              transitionP_isReady, sub_self, zero_add]

/-- One observable step of the playback engine: a load with some
fetch-decode outcome, an operation call at some clock reading, or a
node completion event (toggle delegates to play and pause). -/
inductive PStep : Player → Player → Prop
  | load (p : Player) (result : Except String PBuffer) :
      PStep p (loadAudio p result).1
  | playStep (p : Player) (c : ℚ) : PStep p (play p c)
  | pauseStep (p : Player) (c : ℚ) : PStep p (pause p c)
  | seekStep (p : Player) (t c : ℚ) : PStep p (seek p t c)
  | ended (p : Player) (c : ℚ) : PStep p (handleEnded p c)
  | disposeStep (p : Player) (c : ℚ) : PStep p (dispose p c)

/-- A player state reachable from the freshly constructed player. -/
def PReachable (p : Player) : Prop :=
  Relation.ReflTransGen PStep initialPlayer p

/-- Every engine step preserves "playing implies a live context". -/
theorem pstep_playing_context (p q : Player)
    (hp : p.isPlaying = true → p.context.isSome = true)
    (hstep : PStep p q) : q.isPlaying = true → q.context.isSome = true := by
  cases hstep with
  | load result =>
    cases hc : p.context <;> cases result <;>
      simp [loadAudio, hc, transitionP_context, transitionP_isPlaying]
  | playStep c =>
    unfold play
    by_cases hg : p.context = none ∨ p.buffer = none ∨ p.isPlaying = true
    · rw [if_pos hg]
      exact hp
    · rw [if_neg hg]
      intro _
      rw [transitionP_context]
      rfl
  | pauseStep c =>
    unfold pause
    by_cases hg : p.context = none ∨ p.isPlaying = false
    · rw [if_pos hg]
      exact hp
    · rw [if_neg hg]
      intro hq
      rw [transitionP_isPlaying] at hq
      cases hq
  | seekStep t c =>
    obtain ⟨iP, iR, cT, off, dur, sT, err, ctx, src, buf, tU, nC⟩ := p
    simp only [] at hp
    cases iP <;> cases src <;> cases ctx <;> cases buf <;>
      simp_all [seek, startPlayback, notifyP, transitionP_isPlaying,
                transitionP_context]
  | ended c =>
    unfold handleEnded
    cases hb : p.buffer with
    | none => exact hp
    | some b =>
      simp only []
      split
      · intro hq
        simp [notifyP] at hq
      · exact hp
  | disposeStep c =>
    intro hq
    have hfalse : (dispose p c).isPlaying = false := rfl
    rw [hfalse] at hq
    cases hq

/-- In every reachable player state, playing implies a live context. -/
theorem playing_context (p : Player) (h : PReachable p) :
    p.isPlaying = true → p.context.isSome = true := by
  induction h with
  | refl => intro hq; cases hq
  | tail hab hbc ih => exact pstep_playing_context _ _ ih hbc

/-- Claim C5: in every reachable engine state, seek clamps the
requested time to the buffer duration; an immediately following
snapshot reads that clamped value whether or not playback was active,
playback restarts from the new offset with isPlaying preserved when it
was active, and seek is a strict no-op with no buffer loaded. -/
theorem claim_C5 (p : Player) (o clock : ℚ) (hreach : PReachable p) :
    (p.buffer = none → seek p o clock = p) ∧
    (∀ b : PBuffer, p.buffer = some b →
      (seek p o clock).offset = max 0 (min o b.duration) ∧
      (getSnapshot (seek p o clock) clock).currentTime = max 0 (min o b.duration) ∧
      (seek p o clock).isPlaying = p.isPlaying ∧
      (p.isPlaying = true →
        (seek p o clock).source = some () ∧ (seek p o clock).startTime = clock)) :=
  ⟨(seek_spec p o clock).1,
   fun b hb => (seek_spec p o clock).2 b hb (playing_context p hreach)⟩

/-- The player reached by loading a 10-second source into the fresh
engine. -/
def loadedPlayer : Player := (loadAudio initialPlayer (.ok ⟨10⟩)).1

/-- Witness for claim C5 at concrete inputs: seeking the loaded
10-second buffer to 42 clamps to 10, read back by the snapshot. -/
theorem claim_C5_witness :
    PReachable loadedPlayer ∧
    loadedPlayer.buffer = some ⟨10⟩ ∧
    (seek loadedPlayer 42 0).offset = 10 ∧
    (getSnapshot (seek loadedPlayer 42 0) 0).currentTime = 10 := by
  have hreach : PReachable loadedPlayer :=
    Relation.ReflTransGen.single (PStep.load initialPlayer (.ok ⟨10⟩))
  have hb : loadedPlayer.buffer = some ⟨10⟩ := by
    unfold loadedPlayer loadAudio initialPlayer
    simp only []
    rw [transitionP_buffer]
  have h := (claim_C5 loadedPlayer 42 0 hreach).2 ⟨10⟩ hb
  refine ⟨hreach, hb, ?_, ?_⟩
  · rw [h.1]; norm_num
  · rw [h.2.1]; norm_num

/-- A playing player: context running, a 10-second buffer, a live node
started at clock 0 from offset 0, tracking loop on. -/
def playingPlayer : Player :=
  { isPlaying := true, isReady := true, currentTime := 0, offset := 0,
    duration := 0, startTime := 0, error := none,
    context := some .running, source := some (), buffer := some ⟨10⟩,
    timeUpdateOn := true, notifyCount := 0 }

/-- Counterexample to claim C7 as stated: pausing a 10-second clip at
derived time 9.95 s freezes the offset at 9.95, yet the completion
event the node stop causes still finds 9.95 at or beyond the 9.9 s
tolerance and resets the offset to 0 (with a notification) — so a stop
caused by an explicit pause does trigger the offset-to-0 reset when the
frozen offset lies within the end tolerance. -/
theorem claim_C7_counterexample :
    (pause playingPlayer (199/20)).offset = 199/20 ∧
    (handleEnded (pause playingPlayer (199/20)) 10).offset = 0 ∧
    (handleEnded (pause playingPlayer (199/20)) 10).notifyCount =
      (pause playingPlayer (199/20)).notifyCount + 1 := by
  have hp : pause playingPlayer (199/20) =
      ⟨false, true, 0, 199/20, 0, 0, none, some .suspended, none,
       some ⟨10⟩, false, 1⟩ := by
    unfold pause playingPlayer transitionP notifyP Player.getCurrentTime
      Player.stateTuple
    simp
  rw [hp]
  have he : handleEnded
      (⟨false, true, 0, 199/20, 0, 0, none, some .suspended, none,
        some ⟨10⟩, false, 1⟩ : Player) 10 =
      ⟨false, true, 0, 0, 0, 0, none, some .suspended, none,
       some ⟨10⟩, false, 2⟩ := by
    unfold handleEnded notifyP Player.getCurrentTime
    dsimp only []
    rw [if_pos (by norm_num)]
  rw [he]
  refine ⟨rfl, rfl, rfl⟩

/-- The completion handler resets when the derived current time is at
or beyond the end tolerance: offset 0, not playing, node dropped,
tracking loop stopped, subscribers notified. -/
theorem handleEnded_reset (p : Player) (b : PBuffer) (clock : ℚ)
    (hb : p.buffer = some b)
    (hge : p.getCurrentTime clock ≥ b.duration - 1/10) :
    (handleEnded p clock).offset = 0 ∧
    (handleEnded p clock).isPlaying = false ∧
    (handleEnded p clock).source = none ∧
    (handleEnded p clock).timeUpdateOn = false ∧
    (handleEnded p clock).notifyCount = p.notifyCount + 1 := by
  unfold handleEnded
  rw [hb]
  dsimp only []
  rw [if_pos hge]
  simp [notifyP]

/-- The completion handler changes nothing when the derived current
time is below the end tolerance. -/
theorem handleEnded_no_reset (p : Player) (b : PBuffer) (clock : ℚ)
    (hb : p.buffer = some b)
    (hlt : p.getCurrentTime clock < b.duration - 1/10) :
    handleEnded p clock = p := by
  unfold handleEnded
  rw [hb]
  dsimp only []
  rw [if_neg (not_le.mpr hlt)]

/-- seek never replaces the decoded buffer. -/
theorem seek_buffer (p : Player) (t c : ℚ) : (seek p t c).buffer = p.buffer := by
  obtain ⟨iP, iR, cT, off, dur, sT, err, ctx, src, buf, tU, nC⟩ := p
  cases iP <;> cases src <;> cases ctx <;> cases buf <;>
    simp [seek, startPlayback, notifyP, transitionP_buffer]

/-- seek never touches the decode context. -/
theorem seek_context (p : Player) (t c : ℚ) : (seek p t c).context = p.context := by
  obtain ⟨iP, iR, cT, off, dur, sT, err, ctx, src, buf, tU, nC⟩ := p
  cases iP <;> cases src <;> cases ctx <;> cases buf <;>
    simp [seek, startPlayback, notifyP, transitionP_context]

/-- After a seek during playback, the derived current time read at a
later clock value is that reading minus the seek-time reading plus the
clamped target: the restarted node's startTime is the seek-time clock
and its offset the clamped target. -/
theorem seek_playing_getCurrentTime (p : Player) (b : PBuffer)
    (t clock c2 : ℚ) (hb : p.buffer = some b)
    (hctx : p.context.isSome = true) (hp : p.isPlaying = true) :
    (seek p t clock).getCurrentTime c2 =
      c2 - clock + max 0 (min t b.duration) := by
  obtain ⟨cst, hcs⟩ := Option.isSome_iff_exists.mp hctx
  have hs := (seek_spec p t clock).2 b hb (fun _ => hctx)
  have hip : (seek p t clock).isPlaying = true := hs.2.2.1.trans hp
  have hoff : (seek p t clock).offset = max 0 (min t b.duration) := hs.1
  have hst : (seek p t clock).startTime = clock := (hs.2.2.2 hp).2
  have hctx2 : (seek p t clock).context = some cst :=
    (seek_context p t clock).trans hcs
  unfold Player.getCurrentTime
  rw [hip, hctx2, hst, hoff]
  simp

/-- Claim C7 as amended: a completion event whose derived current time
is at or beyond duration minus 0.1 s resets offset to 0, marks not
playing, stops the tracking loop and notifies subscribers.  A node stop
caused by an explicit pause, or by a seek during playback (which stops
the live node and restarts from the clamped target), does not trigger
this reset provided the derived time at the completion event stays
below duration minus 0.1 s — pause freezes the offset at the derived
time; but a pause or seek that leaves the derived time within the
final 0.1 s tolerance still triggers the offset-to-0 reset when the
completion event fires (per the counterexample). -/
theorem claim_C7_amended :
    (∀ (p : Player) (b : PBuffer) (clock : ℚ), p.buffer = some b →
      p.getCurrentTime clock ≥ b.duration - 1/10 →
      (handleEnded p clock).offset = 0 ∧
      (handleEnded p clock).isPlaying = false ∧
      (handleEnded p clock).source = none ∧
      (handleEnded p clock).timeUpdateOn = false ∧
      (handleEnded p clock).notifyCount = p.notifyCount + 1) ∧
    (∀ (p : Player) (b : PBuffer) (clock c2 : ℚ), p.buffer = some b →
      p.context.isSome = true → p.isPlaying = true →
      clock - p.startTime + p.offset < b.duration - 1/10 →
      (pause p clock).offset = clock - p.startTime + p.offset ∧
      (pause p clock).isPlaying = false ∧
      handleEnded (pause p clock) c2 = pause p clock) ∧
    (∀ (p : Player) (b : PBuffer) (t clock c2 : ℚ), p.buffer = some b →
      p.context.isSome = true → p.isPlaying = true →
      c2 - clock + max 0 (min t b.duration) < b.duration - 1/10 →
      (seek p t clock).offset = max 0 (min t b.duration) ∧
      (seek p t clock).isPlaying = true ∧
      handleEnded (seek p t clock) c2 = seek p t clock) ∧
    (∀ (p : Player) (b : PBuffer) (t clock c2 : ℚ), p.buffer = some b →
      p.context.isSome = true → p.isPlaying = true →
      c2 - clock + max 0 (min t b.duration) ≥ b.duration - 1/10 →
      (handleEnded (seek p t clock) c2).offset = 0 ∧
      (handleEnded (seek p t clock) c2).isPlaying = false ∧
      (handleEnded (seek p t clock) c2).timeUpdateOn = false ∧
      (handleEnded (seek p t clock) c2).notifyCount =
        (seek p t clock).notifyCount + 1) := by
  refine ⟨?_, ?_, ?_, ?_⟩
  · exact fun p b clock => handleEnded_reset p b clock
  · intro p b clock c2 hb hctx hp hlt
    obtain ⟨iP, iR, cT, off, dur, sT, err, ctx, src, buf, tU, nC⟩ := p
    simp only [] at hb hctx hp hlt
    subst hb
    subst hp
    obtain ⟨cst, hcs⟩ := Option.isSome_iff_exists.mp hctx
    subst hcs
    have hpause : pause ⟨true, iR, cT, off, dur, sT, err, some cst, src,
        some b, tU, nC⟩ clock =
        ⟨false, true, cT, clock - sT + off, dur, sT, err, some .suspended,
         none, some b, false, nC + 1⟩ := by
      unfold pause transitionP notifyP Player.getCurrentTime Player.stateTuple
      simp
    rw [hpause]
    refine ⟨rfl, rfl, ?_⟩
    unfold handleEnded Player.getCurrentTime
    dsimp only []
    rw [if_neg (by intro hge; simp at hge; linarith)]
  · intro p b t clock c2 hb hctx hp hlt
    have hs := (seek_spec p t clock).2 b hb (fun _ => hctx)
    refine ⟨hs.1, hs.2.2.1.trans hp, ?_⟩
    have hb2 : (seek p t clock).buffer = some b :=
      (seek_buffer p t clock).trans hb
    have hgc := seek_playing_getCurrentTime p b t clock c2 hb hctx hp
    exact handleEnded_no_reset (seek p t clock) b c2 hb2
      (by rw [hgc]; exact hlt)
  · intro p b t clock c2 hb hctx hp hge
    have hb2 : (seek p t clock).buffer = some b :=
      (seek_buffer p t clock).trans hb
    have hgc := seek_playing_getCurrentTime p b t clock c2 hb hctx hp
    have hr := handleEnded_reset (seek p t clock) b c2 hb2
      (by rw [hgc]; exact hge)
    exact ⟨hr.1, hr.2.1, hr.2.2.2.1, hr.2.2.2.2⟩

/-- Witness for claim C7 at concrete inputs: a natural end firing at
9.95 s of the 10-second clip resets offset to 0 and notifies; a pause
at 5 s is not reset by the subsequent completion event; a seek to 5 s
during playback is not reset by the old node's completion event firing
at the same clock reading; a seek to 42 (clamped to the 10 s end)
during playback is still reset to offset 0, not playing. -/
theorem claim_C7_witness :
    playingPlayer.buffer = some ⟨10⟩ ∧
    Player.getCurrentTime playingPlayer (199/20) ≥ (10 : ℚ) - 1/10 ∧
    (handleEnded playingPlayer (199/20)).offset = 0 ∧
    (handleEnded playingPlayer (199/20)).isPlaying = false ∧
    (5 : ℚ) - 0 + 0 < (10 : ℚ) - 1/10 ∧
    handleEnded (pause playingPlayer 5) 6 = pause playingPlayer 5 ∧
    ((2 : ℚ) - 2 + max 0 (min 5 (10 : ℚ)) < (10 : ℚ) - 1/10) ∧
    handleEnded (seek playingPlayer 5 2) 2 = seek playingPlayer 5 2 ∧
    ((2 : ℚ) - 2 + max 0 (min 42 (10 : ℚ)) ≥ (10 : ℚ) - 1/10) ∧
    (handleEnded (seek playingPlayer 42 2) 2).offset = 0 ∧
    (handleEnded (seek playingPlayer 42 2) 2).isPlaying = false := by
  have hge : Player.getCurrentTime playingPlayer (199/20) ≥ (10 : ℚ) - 1/10 := by
    norm_num [Player.getCurrentTime, playingPlayer]
  have ha := claim_C7_amended.1 playingPlayer ⟨10⟩ (199/20) rfl hge
  have hbp := claim_C7_amended.2.1 playingPlayer ⟨10⟩ 5 6 rfl (by decide)
    (by decide) (by norm_num [playingPlayer])
  have hcseek := claim_C7_amended.2.2.1 playingPlayer ⟨10⟩ 5 2 2 rfl
    (by decide) (by decide) (by norm_num [min_def, max_def])
  have hdseek := claim_C7_amended.2.2.2 playingPlayer ⟨10⟩ 42 2 2 rfl
    (by decide) (by decide) (by norm_num [min_def, max_def])
  exact ⟨rfl, hge, ha.1, ha.2.1, by norm_num, hbp.2.2,
         by norm_num [min_def, max_def], hcseek.2.2,
         by norm_num [min_def, max_def], hdseek.1, hdseek.2.1⟩

/-! ### The full pause and resume session of claim C1 -/

/-- togglePauseResume never touches the chunk list, the session data
flag or the MIME type. -/
theorem togglePauseResume_fields (s : Recorder) :
    (togglePauseResume s).chunks = s.chunks ∧
    (togglePauseResume s).dataReceived = s.dataReceived ∧
    (togglePauseResume s).mimeType = s.mimeType := by
  unfold togglePauseResume handlePause handleResume
  cases s.mediaRecorder with
  | none => exact ⟨rfl, rfl, rfl⟩
  | some st =>
    by_cases h1 : st = .inactive <;> by_cases h2 : s.status = .paused <;>
      by_cases h3 : s.status = .recording <;> simp [h1, h2, h3]

/-- stopRecording never touches the chunk list or the session data
flag. -/
theorem stopRecording_fields (s : Recorder) :
    (stopRecording s).chunks = s.chunks ∧
    (stopRecording s).dataReceived = s.dataReceived := by
  unfold stopRecording
  cases s.mediaRecorder with
  | none => exact ⟨rfl, rfl⟩
  | some st => by_cases h1 : st = .inactive <;> simp [h1]

/-- A list of fragments containing a non-empty one has a positive total
size after the non-empty filter. -/
theorem sum_sizes_pos (l : List Blob)
    (h : l.any (fun c => decide (0 < c.size)) = true) :
    0 < ((l.filter (fun c => decide (0 < c.size))).map Blob.size).sum := by
  obtain ⟨x, hxl, hx⟩ := List.any_eq_true.mp h
  have hx2 : 0 < x.size := of_decide_eq_true hx
  have hmem : x ∈ l.filter (fun c => decide (0 < c.size)) :=
    List.mem_filter.mpr ⟨hxl, hx⟩
  have hmem2 : x.size ∈ (l.filter (fun c => decide (0 < c.size))).map Blob.size :=
    List.mem_map_of_mem Blob.size hmem
  have hle := List.single_le_sum
    (by intro y hy; exact Nat.zero_le y) _ hmem2
  omega

/-- The session of claim C1: a successful start, fragment deliveries
around a pause and a resume, the stop signal, the final flush and the
stop event. -/
def recordPauseResumeStop (sup : String → Bool) (s0 : Recorder)
    (cs1 cs2 cs3 cs4 : List Blob) : Recorder :=
  handleStop (deliverAll (stopRecording (deliverAll (togglePauseResume
    (deliverAll (togglePauseResume (deliverAll
      (startRecordingRun sup [⟨.ok (), true⟩] s0).1 cs1)) cs2)) cs3)) cs4)

/-- Field view of deliverAll when the session MIME type is known. -/
theorem deliverAll_fields (s : Recorder) (cs : List Blob) (mt : String)
    (hm : s.mimeType = some mt) :
    (deliverAll s cs).chunks = s.chunks ++
      ((cs.filter (fun c => decide (0 < c.size))).map
        (fun c => (⟨c.data, mt⟩ : Blob))) ∧
    (deliverAll s cs).dataReceived =
      (s.dataReceived || cs.any (fun c => decide (0 < c.size))) ∧
    (deliverAll s cs).mimeType = some mt := by
  rw [deliverAll_eq]
  refine ⟨?_, rfl, hm⟩
  show s.chunks ++ _ = s.chunks ++ _
  rw [hm]
  rfl

/-- Claim C1: over the start, deliver, pause, resume, deliver, stop
session in which every delivered fragment reaches the data handler and
at least one is non-empty, the assembled object on stop is the
concatenation, in delivery order, of exactly the non-empty fragments,
its byte length is the sum of their lengths, and the status is stopped. -/
theorem claim_C1 (sup : String → Bool) (s0 : Recorder)
    (cs1 cs2 cs3 cs4 : List Blob)
    (hsup : sup (getBestSupportedMimeType sup) = true)
    (hne : (cs1 ++ cs2 ++ cs3 ++ cs4).any (fun c => decide (0 < c.size)) = true) :
    (recordPauseResumeStop sup s0 cs1 cs2 cs3 cs4).status = .stopped ∧
    (recordPauseResumeStop sup s0 cs1 cs2 cs3 cs4).error = none ∧
    (recordPauseResumeStop sup s0 cs1 cs2 cs3 cs4).recordingBlob.map Blob.data =
      some ((((cs1 ++ cs2 ++ cs3 ++ cs4).filter
        (fun c => decide (0 < c.size))).map Blob.data).flatten) ∧
    (recordPauseResumeStop sup s0 cs1 cs2 cs3 cs4).recordingBlob.map Blob.size =
      some ((((cs1 ++ cs2 ++ cs3 ++ cs4).filter
        (fun c => decide (0 < c.size))).map Blob.size).sum) := by
  have hs1 : (startRecordingRun sup [⟨.ok (), true⟩] s0).1 = startedState sup := by
    rw [startRecordingRun_good sup s0 [] hsup]
  have d1 := deliverAll_fields (startedState sup) cs1
    (getBestSupportedMimeType sup) rfl
  have g1 := togglePauseResume_fields (deliverAll (startedState sup) cs1)
  have d2 := deliverAll_fields
    (togglePauseResume (deliverAll (startedState sup) cs1)) cs2
    (getBestSupportedMimeType sup) (g1.2.2.trans d1.2.2)
  have g2 := togglePauseResume_fields
    (deliverAll (togglePauseResume (deliverAll (startedState sup) cs1)) cs2)
  have d3 := deliverAll_fields
    (togglePauseResume
      (deliverAll (togglePauseResume (deliverAll (startedState sup) cs1)) cs2)) cs3
    (getBestSupportedMimeType sup) (g2.2.2.trans d2.2.2)
  have g3 := stopRecording_fields
    (deliverAll (togglePauseResume
      (deliverAll (togglePauseResume (deliverAll (startedState sup) cs1)) cs2)) cs3)
  have g3m := stopRecording_mimeType
    (deliverAll (togglePauseResume
      (deliverAll (togglePauseResume (deliverAll (startedState sup) cs1)) cs2)) cs3)
  have d4 := deliverAll_fields
    (stopRecording (deliverAll (togglePauseResume
      (deliverAll (togglePauseResume (deliverAll (startedState sup) cs1)) cs2)) cs3)) cs4
    (getBestSupportedMimeType sup) (g3m.trans d3.2.2)
  have hch : (deliverAll (stopRecording (deliverAll (togglePauseResume
      (deliverAll (togglePauseResume (deliverAll (startedState sup) cs1)) cs2)) cs3)) cs4).chunks =
      (((cs1 ++ cs2 ++ cs3 ++ cs4).filter (fun c => decide (0 < c.size))).map
        (fun c => (⟨c.data, getBestSupportedMimeType sup⟩ : Blob))) := by
    rw [d4.1, g3.1, d3.1, g2.1, d2.1, g1.1, d1.1]
    simp [startedState, List.filter_append, List.map_append, List.append_assoc]
  have hdr : (deliverAll (stopRecording (deliverAll (togglePauseResume
      (deliverAll (togglePauseResume (deliverAll (startedState sup) cs1)) cs2)) cs3)) cs4).dataReceived =
      (cs1 ++ cs2 ++ cs3 ++ cs4).any (fun c => decide (0 < c.size)) := by
    rw [d4.2.1, g3.2, d3.2.1, g2.2.1, d2.2.1, g1.2.1, d1.2.1]
    simp [startedState, List.any_append, Bool.or_assoc]
  have hmime := d4.2.2
  have hdr2 : (deliverAll (stopRecording (deliverAll (togglePauseResume
      (deliverAll (togglePauseResume (deliverAll (startedState sup) cs1)) cs2)) cs3)) cs4).dataReceived = true :=
    hdr.trans hne
  obtain ⟨x, hxl, hx⟩ := List.any_eq_true.mp hne
  have hxmem : x ∈ (cs1 ++ cs2 ++ cs3 ++ cs4).filter (fun c => decide (0 < c.size)) :=
    List.mem_filter.mpr ⟨hxl, hx⟩
  have hchne : (deliverAll (stopRecording (deliverAll (togglePauseResume
      (deliverAll (togglePauseResume (deliverAll (startedState sup) cs1)) cs2)) cs3)) cs4).chunks ≠ [] := by
    rw [hch]
    exact List.ne_nil_of_mem (List.mem_map_of_mem _ hxmem)
  have hsz : (blobConcat (((cs1 ++ cs2 ++ cs3 ++ cs4).filter
        (fun c => decide (0 < c.size))).map
        (fun c => (⟨c.data, getBestSupportedMimeType sup⟩ : Blob)))
        (getBestSupportedMimeType sup)).size =
      (((cs1 ++ cs2 ++ cs3 ++ cs4).filter (fun c => decide (0 < c.size))).map
        Blob.size).sum := by
    unfold blobConcat Blob.size
    rw [List.length_flatten, List.map_map, List.map_map]
    rfl
  have hszpos : (blobConcat (((cs1 ++ cs2 ++ cs3 ++ cs4).filter
        (fun c => decide (0 < c.size))).map
        (fun c => (⟨c.data, getBestSupportedMimeType sup⟩ : Blob)))
        (getBestSupportedMimeType sup)).size ≠ 0 := by
    rw [hsz]
    have := sum_sizes_pos (cs1 ++ cs2 ++ cs3 ++ cs4) hne
    omega
  have hdata : (blobConcat (((cs1 ++ cs2 ++ cs3 ++ cs4).filter
        (fun c => decide (0 < c.size))).map
        (fun c => (⟨c.data, getBestSupportedMimeType sup⟩ : Blob)))
        (getBestSupportedMimeType sup)).data =
      (((cs1 ++ cs2 ++ cs3 ++ cs4).filter
        (fun c => decide (0 < c.size))).map Blob.data).flatten := by
    unfold blobConcat
    rw [List.map_map]
    rfl
  unfold recordPauseResumeStop
  rw [hs1]
  unfold handleStop
  rw [hdr2, hch, hmime]
  simp only [Bool.true_eq_false, if_false, reduceIte]
  rw [if_neg (by
    intro hempty
    refine absurd ?_ (List.ne_nil_of_mem (List.mem_map_of_mem
      (fun c => (⟨c.data, getBestSupportedMimeType sup⟩ : Blob)) hxmem))
    exact hempty)]
  rw [if_neg (by
    show ¬ (blobConcat _ ((some (getBestSupportedMimeType sup)).getD "")).size = 0
    simpa using hszpos)]
  refine ⟨rfl, rfl, ?_, ?_⟩
  · show some (blobConcat _ ((some (getBestSupportedMimeType sup)).getD "")).data = _
    simpa using congrArg some hdata
  · show some (blobConcat _ ((some (getBestSupportedMimeType sup)).getD "")).size = _
    simpa using congrArg some hsz

/-- Witness for claim C1 at concrete inputs: chunks of 10, 20 and 30
bytes assemble into a 60-byte object with status stopped. -/
theorem claim_C1_witness :
    ((fun _ : String => true) (getBestSupportedMimeType (fun _ => true)) = true) ∧
    (([(⟨List.replicate 10 0, ""⟩ : Blob)] ++ [] ++
      [(⟨List.replicate 20 0, ""⟩ : Blob), ⟨List.replicate 30 0, ""⟩] ++ []).any
        (fun c => decide (0 < c.size)) = true) ∧
    (recordPauseResumeStop (fun _ => true) initialRecorder
      [⟨List.replicate 10 0, ""⟩] []
      [⟨List.replicate 20 0, ""⟩, ⟨List.replicate 30 0, ""⟩] []).status = .stopped ∧
    (recordPauseResumeStop (fun _ => true) initialRecorder
      [⟨List.replicate 10 0, ""⟩] []
      [⟨List.replicate 20 0, ""⟩, ⟨List.replicate 30 0, ""⟩] []).recordingBlob.map
        Blob.size = some 60 := by
  have h := claim_C1 (fun _ => true) initialRecorder
    [⟨List.replicate 10 0, ""⟩] []
    [⟨List.replicate 20 0, ""⟩, ⟨List.replicate 30 0, ""⟩] []
    (by decide) (by decide)
  exact ⟨by decide, by decide, h.1, by rw [h.2.2.2]; decide⟩

/-! ### Reachable controller states and the handle invariant (claim C3) -/

/-- One observable step of the controller: a startRecording run under
any environment, an operation call, or an event the live recorder (the
registered listeners) can deliver. -/
inductive RecStep : Recorder → Recorder → Prop
  | start (sup : String → Bool) (envs : List AttemptEnv) (s : Recorder) :
      RecStep s (startRecordingRun sup envs s).1
  | deliver (s : Recorder) (c : Blob) (h : s.mediaRecorder.isSome = true) :
      RecStep s (handleDataAvailable s c)
  | toggle (s : Recorder) : RecStep s (togglePauseResume s)
  | stopCall (s : Recorder) : RecStep s (stopRecording s)
  | stopEvent (s : Recorder) (h : s.mediaRecorder.isSome = true) :
      RecStep s (handleStop s)
  | pauseEvent (s : Recorder) (h : s.mediaRecorder.isSome = true) :
      RecStep s (handlePause s)
  | resumeEvent (s : Recorder) (h : s.mediaRecorder.isSome = true) :
      RecStep s (handleResume s)
  | errorEvent (s : Recorder) (e : String) (h : s.mediaRecorder.isSome = true) :
      RecStep s (handleErrorFn e s)
  | release (s : Recorder) : RecStep s (releaseResources s)

/-- A controller state reachable from the initial one. -/
def RecReachable (s : Recorder) : Prop :=
  Relation.ReflTransGen RecStep initialRecorder s

/-- The handle invariant that actually holds: the recorder reference is
present whenever status is recording or paused, and absent whenever
status is idle (the stopped status keeps the reference). -/
def handleInv (s : Recorder) : Prop :=
  ((s.status = .recording ∨ s.status = .paused) → s.mediaRecorder.isSome = true) ∧
  (s.status = .idle → s.mediaRecorder = none)

/-- Every failing attempt leaves an idle state without a recorder
reference. -/
theorem attempt_error_state (sup : String → Bool) (env : AttemptEnv)
    (s : Recorder) (e : String) (s1 : Recorder)
    (h : attempt sup env s = .error (e, s1)) :
    s1.status = .idle ∧ s1.mediaRecorder = none := by
  unfold attempt at h
  cases henv : env.streamResult with
  | error e2 =>
    rw [henv] at h
    simp only [Except.error.injEq, Prod.mk.injEq] at h
    rw [← h.2]
    exact ⟨rfl, rfl⟩
  | ok u =>
    rw [henv] at h
    simp only [] at h
    by_cases hact : env.streamActive = false
    · rw [if_pos hact] at h
      simp only [Except.error.injEq, Prod.mk.injEq] at h
      rw [← h.2]
      exact ⟨rfl, rfl⟩
    · rw [if_neg hact] at h
      by_cases hsup : sup (getBestSupportedMimeType sup) = false
      · rw [if_pos hsup] at h
        simp only [Except.error.injEq, Prod.mk.injEq] at h
        rw [← h.2]
        exact ⟨rfl, rfl⟩
      · rw [if_neg hsup] at h
        cases h

/-- Every successful attempt lands in the started state. -/
theorem attempt_ok_state (sup : String → Bool) (env : AttemptEnv)
    (s s1 : Recorder) (h : attempt sup env s = .ok s1) :
    s1.status = .recording ∧ s1.mediaRecorder.isSome = true := by
  unfold attempt at h
  cases henv : env.streamResult with
  | error e2 =>
    rw [henv] at h
    cases h
  | ok u =>
    rw [henv] at h
    simp only [] at h
    by_cases hact : env.streamActive = false
    · rw [if_pos hact] at h
      cases h
    · rw [if_neg hact] at h
      by_cases hsup : sup (getBestSupportedMimeType sup) = false
      · rw [if_pos hsup] at h
        cases h
      · rw [if_neg hsup] at h
        simp only [Except.ok.injEq] at h
        rw [← h]
        exact ⟨rfl, rfl⟩

/-- handleDataAvailable never changes the status. -/
theorem handleDataAvailable_status (s : Recorder) (c : Blob) :
    (handleDataAvailable s c).status = s.status := by
  unfold handleDataAvailable
  split
  · simp only []
    split <;> rfl
  · rfl

/-- handleDataAvailable never changes the recorder reference. -/
theorem handleDataAvailable_mediaRecorder (s : Recorder) (c : Blob) :
    (handleDataAvailable s c).mediaRecorder = s.mediaRecorder := by
  unfold handleDataAvailable
  split
  · simp only []
    split <;> rfl
  · rfl

/-- A state that is idle without a recorder reference satisfies the
handle invariant. -/
theorem handleInv_idle (s : Recorder) (h1 : s.status = .idle)
    (h2 : s.mediaRecorder = none) : handleInv s := by
  constructor
  · intro hr
    rw [h1] at hr
    rcases hr with hr | hr <;> cases hr
  · intro _
    exact h2

/-- The startRecording retry loop preserves the handle invariant. -/
theorem startRecAux_inv (sup : String → Bool) (envs : List AttemptEnv)
    (n : Nat) (s : Recorder) (hs : handleInv s) :
    handleInv (startRecAux sup envs n s).1 := by
  induction envs generalizing n s with
  | nil => exact hs
  | cons env rest ih =>
    unfold startRecAux
    cases hat : attempt sup env s with
    | ok s1 =>
      obtain ⟨h1, h2⟩ := attempt_ok_state sup env s s1 hat
      constructor
      · intro _
        exact h2
      · intro hidle
        rw [h1] at hidle
        cases hidle
    | error es =>
      obtain ⟨e, s1⟩ := es
      obtain ⟨h1, h2⟩ := attempt_error_state sup env s e s1 hat
      simp only []
      by_cases hn : n < 2
      · rw [if_pos hn]
        exact ih (n + 1) s1 (handleInv_idle s1 h1 h2)
      · rw [if_neg hn]
        exact handleInv_idle _ rfl rfl

/-- Every single controller step preserves the handle invariant. -/
theorem recStep_inv (s s1 : Recorder) (hs : handleInv s)
    (hstep : RecStep s s1) : handleInv s1 := by
  cases hstep with
  | start sup envs s => exact startRecAux_inv sup envs 0 s hs
  | deliver s c h =>
    constructor
    · intro hr
      rw [handleDataAvailable_status] at hr
      rw [handleDataAvailable_mediaRecorder]
      exact hs.1 hr
    · intro hi
      rw [handleDataAvailable_status] at hi
      rw [handleDataAvailable_mediaRecorder]
      exact hs.2 hi
  | toggle s =>
    unfold togglePauseResume handlePause handleResume
    cases hmr : s.mediaRecorder with
    | none => exact hs
    | some st =>
      simp only []
      by_cases h1 : st = .inactive
      · rw [if_pos h1]
        exact hs
      · rw [if_neg h1]
        by_cases h2 : s.status = .paused
        · rw [if_pos h2]
          constructor
          · intro _
            rfl
          · intro hi
            cases hi
        · rw [if_neg h2]
          by_cases h3 : s.status = .recording
          · rw [if_pos h3]
            constructor
            · intro _
              rfl
            · intro hi
              cases hi
          · rw [if_neg h3]
            exact hs
  | stopCall s =>
    unfold stopRecording
    cases hmr : s.mediaRecorder with
    | none => exact hs
    | some st =>
      simp only []
      by_cases h1 : st = .inactive
      · rw [if_pos h1]
        exact hs
      · rw [if_neg h1]
        constructor
        · intro _
          rfl
        · intro hi
          have h2 := hs.2 hi
          rw [hmr] at h2
          cases h2
  | stopEvent s h =>
    unfold handleStop
    by_cases h1 : s.dataReceived = false
    · rw [if_pos h1]
      exact handleInv_idle _ rfl rfl
    · rw [if_neg h1]
      by_cases h2 : s.chunks = []
      · rw [if_pos h2]
        exact handleInv_idle _ rfl rfl
      · rw [if_neg h2]
        simp only []
        by_cases h3 : (blobConcat s.chunks (s.mimeType.getD "")).size = 0
        · rw [if_pos h3]
          exact handleInv_idle _ rfl rfl
        · rw [if_neg h3]
          constructor
          · intro hr
            rcases hr with hr | hr <;> cases hr
          · intro hi
            cases hi
  | pauseEvent s h =>
    unfold handlePause
    constructor
    · intro _
      exact h
    · intro hi
      cases hi
  | resumeEvent s h =>
    unfold handleResume
    constructor
    · intro _
      exact h
    · intro hi
      cases hi
  | errorEvent s e h =>
    exact handleInv_idle _ rfl rfl
  | release s =>
    exact handleInv_idle _ rfl rfl

/-- A concrete run reaching status stopped: successful start, one
10-byte chunk, the stop call and the stop event. -/
def stoppedRun : Recorder :=
  handleStop (stopRecording (handleDataAvailable
    (startRecordingRun (fun _ => true) [⟨.ok (), true⟩] initialRecorder).1
    ⟨List.replicate 10 0, ""⟩))

/-- Counterexample to claim C3 as stated: after a successful stop the
status is stopped while the recorder reference is still present (only
its hardware tracks were stopped), so the stated "non-null iff status
is recording or paused" fails in the reachable stopped state. -/
theorem claim_C3_counterexample :
    RecReachable stoppedRun ∧
    stoppedRun.status = .stopped ∧
    stoppedRun.mediaRecorder = some .inactive := by
  refine ⟨?_, by decide, by decide⟩
  exact Relation.ReflTransGen.tail
    (Relation.ReflTransGen.tail
      (Relation.ReflTransGen.tail
        (Relation.ReflTransGen.single
          (RecStep.start (fun _ => true) [⟨.ok (), true⟩] initialRecorder))
        (RecStep.deliver _ ⟨List.replicate 10 0, ""⟩ (by decide)))
      (RecStep.stopCall _))
    (RecStep.stopEvent _ (by decide))

/-- Claim C3 as amended: in every reachable state the recorder
reference is present whenever status is recording or paused and absent
whenever status is idle; after a successful stop (status stopped) the
reference is retained, per the counterexample. -/
theorem claim_C3_amended (s : Recorder) (h : RecReachable s) :
    ((s.status = .recording ∨ s.status = .paused) →
      s.mediaRecorder.isSome = true) ∧
    (s.status = .idle → s.mediaRecorder = none) := by
  have hinv : handleInv s := by
    induction h with
    | refl => exact handleInv_idle initialRecorder rfl rfl
    | tail hab hbc ih => exact recStep_inv _ _ ih hbc
  exact hinv

/-- Witness for claim C3 at a concrete reachable state: the initial
state is idle with no recorder reference. -/
theorem claim_C3_witness :
    RecReachable initialRecorder ∧ initialRecorder.mediaRecorder = none :=
  ⟨Relation.ReflTransGen.refl,
   (claim_C3_amended initialRecorder Relation.ReflTransGen.refl).2 rfl⟩

/-! ### Format selection (claims C9) -/

/-- With no supported key in the table, selection falls back to
audio/mp4. -/
theorem getBest_none (sup : String → Bool)
    (hnone : ∀ k ∈ audioConfigKeys, sup k = false) :
    getBestSupportedMimeType sup = "audio/mp4" := by
  have hsort : sortKeysByPriority audioConfigKeys = audioConfigKeys := by decide
  have h1 := hnone "audio/webm;codecs=opus" (by simp [audioConfigKeys, AUDIO_CONFIGS])
  have h2 := hnone "audio/webm" (by simp [audioConfigKeys, AUDIO_CONFIGS])
  have h3 := hnone "audio/mp4" (by simp [audioConfigKeys, AUDIO_CONFIGS])
  have h4 := hnone "audio/mpeg" (by simp [audioConfigKeys, AUDIO_CONFIGS])
  unfold getBestSupportedMimeType
  rw [hsort]
  simp [audioConfigKeys, AUDIO_CONFIGS, List.find?, h1, h2, h3, h4]

/-- With at least one supported key, selection returns a supported
table key of minimal priority. -/
theorem getBest_supported (sup : String → Bool)
    (hex : ∃ k, k ∈ audioConfigKeys ∧ sup k = true) :
    getBestSupportedMimeType sup ∈ audioConfigKeys ∧
    sup (getBestSupportedMimeType sup) = true ∧
    ∀ k, k ∈ audioConfigKeys → sup k = true →
      priorityOf (getBestSupportedMimeType sup) ≤ priorityOf k := by
  have hsort : sortKeysByPriority audioConfigKeys = audioConfigKeys := by decide
  have p1 : priorityOf "audio/webm;codecs=opus" = 1 := by decide
  have p2 : priorityOf "audio/webm" = 2 := by decide
  have p3 : priorityOf "audio/mp4" = 3 := by decide
  have p4 : priorityOf "audio/mpeg" = 4 := by decide
  obtain ⟨k, hk, hsk⟩ := hex
  unfold getBestSupportedMimeType
  rw [hsort]
  cases h1 : sup "audio/webm;codecs=opus" <;> cases h2 : sup "audio/webm" <;>
    cases h3 : sup "audio/mp4" <;> cases h4 : sup "audio/mpeg" <;>
    simp_all [audioConfigKeys, AUDIO_CONFIGS, List.find?, p1, p2, p3, p4]
  rcases hk with rfl | rfl | rfl | rfl <;> simp_all

/-- Claim C9: encoding-format selection returns the supported table
entry of lowest priority number, falling back through the ordered list
and defaulting to audio/mp4 when none match; and when the platform
supports no table format, startRecording fails with the
unsupported-format error after exhausting its two retries, resetting to
idle. -/
theorem claim_C9 :
    (∀ sup : String → Bool,
      ((∃ k, k ∈ audioConfigKeys ∧ sup k = true) →
        getBestSupportedMimeType sup ∈ audioConfigKeys ∧
        sup (getBestSupportedMimeType sup) = true ∧
        ∀ k, k ∈ audioConfigKeys → sup k = true →
          priorityOf (getBestSupportedMimeType sup) ≤ priorityOf k) ∧
      ((∀ k ∈ audioConfigKeys, sup k = false) →
        getBestSupportedMimeType sup = "audio/mp4")) ∧
    (∀ (s0 : Recorder) (sup : String → Bool),
      (∀ k ∈ audioConfigKeys, sup k = false) →
      (startRecordingRun sup [⟨.ok (), true⟩, ⟨.ok (), true⟩, ⟨.ok (), true⟩]
        s0).1.status = .idle ∧
      (startRecordingRun sup [⟨.ok (), true⟩, ⟨.ok (), true⟩, ⟨.ok (), true⟩]
        s0).1.error = some "Mime type audio/mp4 is not supported" ∧
      (startRecordingRun sup [⟨.ok (), true⟩, ⟨.ok (), true⟩, ⟨.ok (), true⟩]
        s0).2 = [1000, 1000]) := by
  refine ⟨fun sup => ⟨getBest_supported sup, getBest_none sup⟩, ?_⟩
  intro s0 sup hnone
  have h4 : sup "audio/mp4" = false :=
    hnone "audio/mp4" (by simp [audioConfigKeys, AUDIO_CONFIGS])
  have hbest := getBest_none sup hnone
  have hatt : ∀ s : Recorder, attempt sup ⟨.ok (), true⟩ s =
      .error ("Mime type audio/mp4 is not supported",
        { reset s with mediaStream := some () }) := by
    intro s
    have hr : reset (if s.mediaRecorder = some .recording
        then stopRecording s else s) = reset s := by
      split
      · exact reset_stopRecording s
      · rfl
    unfold attempt
    simp [hr, hbest, h4]
  have hrun : startRecordingRun sup
      [⟨.ok (), true⟩, ⟨.ok (), true⟩, ⟨.ok (), true⟩] s0 =
      (handleErrorFn "Mime type audio/mp4 is not supported"
        { reset { reset { reset s0 with mediaStream := some () } with
            mediaStream := some () } with mediaStream := some () },
       [1000, 1000]) := by
    unfold startRecordingRun startRecAux
    rw [hatt s0]
    simp only []
    unfold startRecAux
    rw [hatt _]
    simp only []
    unfold startRecAux
    rw [hatt _]
    simp
  rw [hrun]
  unfold handleErrorFn reset
  exact ⟨rfl, rfl, rfl⟩

/-- Witness for claim C9 at concrete inputs: with nothing supported the
selected format is audio/mp4 and startRecording ends idle with the
unsupported-format error; with everything supported the top-priority
opus entry is selected. -/
theorem claim_C9_witness :
    (∀ k ∈ audioConfigKeys, (fun _ : String => false) k = false) ∧
    (∃ k, k ∈ audioConfigKeys ∧ (fun _ : String => true) k = true) ∧
    getBestSupportedMimeType (fun _ => true) ∈ audioConfigKeys ∧
    (startRecordingRun (fun _ => false)
      [⟨.ok (), true⟩, ⟨.ok (), true⟩, ⟨.ok (), true⟩] initialRecorder).1.status = .idle ∧
    (startRecordingRun (fun _ => false)
      [⟨.ok (), true⟩, ⟨.ok (), true⟩, ⟨.ok (), true⟩] initialRecorder).1.error =
      some "Mime type audio/mp4 is not supported" :=
  ⟨by decide, by decide,
   ((claim_C9.1 (fun _ => true)).1 (by decide)).1,
   (claim_C9.2 initialRecorder (fun _ => false) (by decide)).1,
   (claim_C9.2 initialRecorder (fun _ => false) (by decide)).2.1⟩

end RecorderPWA
